import Mathlib

/-!
Verification of the health-metrics analytics pipeline of the PANW take-home
health tracking app: the batch statistical analysis that turns a time series
of daily health records into correlations, anomalies, trends and lagged
behavioural patterns, plus the mobile API client that consumes it.

The embedding follows the sources: the orchestrator run_full_analysis as
laid out in IMPLEMENTATION_PLAN.md (ml_service.py), the TypeScript API
client (lib/api.ts, concatenated into take-home/app/_layout.tsx), the
analytics tab (loadAnalytics), the correlated dashboard
(correlated-dashboard.tsx) and the chart components.  The statistical
analyzer bodies (ml_models.py) are not present in the repository snapshot;
definitions for them are modelled from the specification and are marked as
such in their doc comments.
-/

open MeasureTheory

namespace HealthAnalytics

/-- One daily record: a date index and a mapping from metric name to an
optional numeric value (absent when the metric was not logged that day). -/
structure MetricRow where
  date : Nat
  metrics : List (String × Option ℚ)

/-- A dataset: the rows fetched for one user over a requested day window,
ordered by date. -/
abbrev Dataset := List MetricRow

/-- Value of a metric in a row, if present. -/
def getMetric (r : MetricRow) (m : String) : Option ℚ :=
  (r.metrics.find? (fun p => p.1 == m)).bind (fun p => p.2)

/-- Mean of a list of rationals (0 on the empty list, as the guard sites
never call it on an empty list without checking). -/
def meanQ (l : List ℚ) : ℚ := l.sum / (l.length : ℚ)

/-- All metric names appearing anywhere in the dataset, without duplicates. -/
def metricNames (df : Dataset) : List String :=
  (df.foldr (fun r acc => r.metrics.map Prod.fst ++ acc) []).dedup

/-- The non-null values of one metric column over a list of rows. -/
def columnValues (rows : List MetricRow) (m : String) : List ℚ :=
  rows.filterMap (fun r => getMetric r m)

/-! ## Correlation strength buckets (claim C4)

getCorrelationColor is taken verbatim from the correlation chart component
(src/unnamed/part_003, correlation-chart.tsx lines 18 to 23). -/

/-- From correlation-chart.tsx: colour classification of a correlation
coefficient by absolute value (red for strong, amber for moderate, green
for weak). -/
def getCorrelationColor (value : ℚ) : String :=
  if 7/10 ≤ |value| then "#ef4444"
  else if 4/10 ≤ |value| then "#f59e0b"
  else "#10b981"

/-- Modelled from the spec: the strength bucket the Correlation Analyzer
(analyze_correlations in ml_models.py, not present under the snapshot)
assigns to a coefficient: weak below 0.4, moderate in the interval from 0.4
up to but excluding 0.7, strong at or above 0.7, by absolute value. -/
def strengthLabel (c : ℚ) : String :=
  if 7/10 ≤ |c| then "strong"
  else if 4/10 ≤ |c| then "moderate"
  else "weak"

/-! ## Anomaly severity (claim C5)

From IMPLEMENTATION_PLAN.md, run_full_analysis: the severity stored with an
anomaly is high exactly when the composite anomaly score is below -0.6. -/

/-- From run_full_analysis in IMPLEMENTATION_PLAN.md: severity label derived
from the composite anomaly score of a flagged day. -/
def anomalySeverity (score : ℚ) : String :=
  if score < -(6/10) then "high" else "moderate"

/-! ## Correlation request window (claim C9)

From correlated-dashboard.tsx, loadDashboardData. -/

/-- From loadDashboardData in correlated-dashboard.tsx: the window used for
the correlations request is Math.max(days, 30). -/
def correlationDays (days : ℚ) : ℚ := max days 30

/-! ## API client analytics namespace (claim C10)

From lib/api.ts (concatenated into take-home/app/_layout.tsx): every
analytics function throws on a non-ok HTTP response and otherwise returns
the parsed JSON body. -/

/-- An HTTP response as the API client observes it: the ok flag, the parsed
JSON body (abstracted as a string), and the detail field the analyze
endpoint reads from an error body. -/
structure Response where
  ok : Bool
  body : String
  detail : Option String

/-- True exactly on successful results. -/
def exceptOk {ε α : Type} (e : Except ε α) : Bool :=
  match e with
  | Except.ok _ => true
  | Except.error _ => false

namespace ApiAnalytics

/-- api.analytics.analyze: POST the analyze endpoint; on a non-ok response
throw the detail of the error body, defaulting the message. -/
def analyze (r : Response) : Except String String :=
  if r.ok then Except.ok r.body
  else Except.error (r.detail.getD "Failed to run analysis")

/-- api.analytics.getCorrelations. -/
def getCorrelations (r : Response) : Except String String :=
  if r.ok then Except.ok r.body else Except.error "Failed to fetch correlations"

/-- api.analytics.getAnomalies. -/
def getAnomalies (r : Response) : Except String String :=
  if r.ok then Except.ok r.body else Except.error "Failed to fetch anomalies"

/-- api.analytics.getTrends. -/
def getTrends (r : Response) : Except String String :=
  if r.ok then Except.ok r.body else Except.error "Failed to fetch trends"

/-- api.analytics.getSummary. -/
def getSummary (r : Response) : Except String String :=
  if r.ok then Except.ok r.body else Except.error "Failed to fetch summary"

/-- api.analytics.getBaselines. -/
def getBaselines (r : Response) : Except String String :=
  if r.ok then Except.ok r.body else Except.error "Failed to fetch baselines"

end ApiAnalytics

/-! ## Orchestrator insufficient-data gate (claim C1)

From IMPLEMENTATION_PLAN.md, MLAnalysisService.run_full_analysis: after
fetching the dataset the orchestrator returns the insufficient-data error
result when fewer than 30 rows came back, and only otherwise invokes the
four analyzers.  The analyzers are parameters of the embedding, so that the
independence of the sub-30 outcome from them expresses that none of them is
invoked on that path. -/

/-- From run_full_analysis in IMPLEMENTATION_PLAN.md: the orchestrator
refuses with the insufficient-data error for datasets of fewer than 30
rows, and otherwise assembles the results of the four analyzers. -/
def run_full_analysis {α β γ δ : Type} (corrA : Dataset → α) (anomA : Dataset → β)
    (trendA : Dataset → γ) (patA : Dataset → δ) (df : Dataset) :
    Except String (α × β × γ × δ) :=
  if df.length < 30 then Except.error "Insufficient data (need at least 30 days)"
  else Except.ok (corrA df, anomA df, trendA df, patA df)

/-- Trivial analyzer used only to witness the orchestrator gate. -/
def unitAnalyzer (_df : Dataset) : Nat := 0

/-- A row with no logged metrics, used to build concrete datasets. -/
def emptyRow : MetricRow := ⟨0, []⟩

/-! ## Result records of the API client (lib/api.ts interfaces) -/

/-- The Correlation interface of lib/api.ts. -/
structure Correlation where
  metric_a : String
  metric_b : String
  correlation : ℚ
  p_value : ℚ
  strength : String
  direction : String

/-- The Anomaly interface of lib/api.ts. -/
structure Anomaly where
  date : String
  primary_metric : String
  metric_value : ℚ
  baseline_value : Option ℚ
  z_score : ℚ
  anomaly_score : ℚ
  severity : String

/-- The Trend interface of lib/api.ts. -/
structure Trend where
  metric : String
  trend_direction : String
  percent_change : ℚ
  first_30d_avg : ℚ
  last_30d_avg : ℚ

/-- The Pattern interface of lib/api.ts. -/
structure ApiPattern where
  pattern_type : String
  pattern_name : String
  predictor_metric : String
  outcome_metric : String
  percent_change : ℚ
  confidence_level : String
  narrative : String

/-! ## Analyzer failure containment (claim C8) -/

/-- A promise guarded by catch: the successful value, or the supplied
fallback when the promise rejected. -/
def recover {α : Type} (r : Except String α) (fallback : α) : α :=
  match r with
  | Except.ok v => v
  | Except.error _ => fallback

/-- The combined results the analytics tab assembles from its three
fetches. -/
structure ClientAnalysisResults where
  correlations : List Correlation
  anomalies : List Anomaly
  trends : List Trend

/-- From loadAnalytics in the analytics tab (src/unnamed/part_009): the
correlations, anomalies and trends fetches are each guarded by a catch that
substitutes an empty collection, and the three outcomes are combined. -/
def loadAnalyticsCombine (corrRes : Except String (List Correlation))
    (anomRes : Except String (List Anomaly))
    (trendRes : Except String (List Trend)) : ClientAnalysisResults :=
  { correlations := recover corrRes []
    anomalies := recover anomRes []
    trends := recover trendRes [] }

/-- From loadDashboardData in correlated-dashboard.tsx: the correlations
fetch falls back to the empty list on any rejection. -/
def loadDashboardCorrelations (res : Except String (List Correlation)) : List Correlation :=
  recover res []

/-- From run_full_analysis in IMPLEMENTATION_PLAN.md, with the analyzer
calls taken as fallible (a Python exception becomes an error result): after
the insufficient-data gate the four analyzers are invoked unguarded in
sequence, so the first analyzer exception propagates out of the
orchestrator (the analytics endpoint then converts it into an HTTP 500)
and no partial result is returned. -/
def run_full_analysis_fallible {α β γ δ : Type}
    (corrA : Dataset → Except String α) (anomA : Dataset → Except String β)
    (trendA : Dataset → Except String γ) (patA : Dataset → Except String δ)
    (df : Dataset) : Except String (α × β × γ × δ) :=
  if df.length < 30 then Except.error "Insufficient data (need at least 30 days)"
  else do
    let c ← corrA df
    let a ← anomA df
    let t ← trendA df
    let p ← patA df
    return (c, a, t, p)

/-- A concrete correlation record, like the sample response shown in
TESTING_ML_ENDPOINTS.md. -/
def sampleCorrelation : Correlation :=
  ⟨"sleep_hours", "dietary_sugar", -(13/20), 1/1000, "moderate", "negative"⟩

/-- A concrete trend record. -/
def sampleTrend : Trend := ⟨"step_count", "increasing", 12, 8000, 8960⟩

/-! ## Trend Analyzer (claim C6)

Modelled from the spec: analyze_trends of ml_models.py is not under the
snapshot.  The spec splits the sorted window into the first N and last N
days with N = min(30, floor(window/2)), averages each half per metric
ignoring nulls, skips a metric when a half is all null or when the first
average is zero, and reports percent change (lastAvg - firstAvg) / firstAvg
x 100 with a dead band of 5 percent for the stable direction. -/

/-- A trend record of the Trend Analyzer. -/
structure TrendResult where
  metric : String
  trend_direction : String
  percent_change : ℚ
  first_avg : ℚ
  last_avg : ℚ

/-- The first N rows of the window, N = min(30, floor(window/2)). -/
def firstWindow (df : Dataset) : List MetricRow := df.take (min 30 (df.length / 2))

/-- The last N rows of the window, N = min(30, floor(window/2)). -/
def lastWindow (df : Dataset) : List MetricRow := df.drop (df.length - min 30 (df.length / 2))

/-- Average of a metric over the first window, ignoring nulls. -/
def firstAvg (df : Dataset) (m : String) : ℚ := meanQ (columnValues (firstWindow df) m)

/-- Average of a metric over the last window, ignoring nulls. -/
def lastAvg (df : Dataset) (m : String) : ℚ := meanQ (columnValues (lastWindow df) m)

/-- Direction classification with the 5 percent dead band. -/
def trendDirection (pc : ℚ) : String :=
  if |pc| < 5 then "stable" else if 0 < pc then "increasing" else "decreasing"

/-- Modelled from the spec: the trend computed for one metric; none when a
half window has no non-null value for the metric, or when the first-half
average is zero (the division-by-zero fallback: the metric is skipped). -/
def trendFor (df : Dataset) (m : String) : Option TrendResult :=
  if (columnValues (firstWindow df) m).isEmpty
      || (columnValues (lastWindow df) m).isEmpty then none
  else if firstAvg df m = 0 then none
  else
    some ⟨m, trendDirection ((lastAvg df m - firstAvg df m) / firstAvg df m * 100),
      (lastAvg df m - firstAvg df m) / firstAvg df m * 100, firstAvg df m, lastAvg df m⟩

/-- Modelled from the spec: the Trend Analyzer over all metric columns. -/
def analyze_trends (df : Dataset) : List TrendResult :=
  (metricNames df).filterMap (trendFor df)

/-! ## Anomaly Detector (claim C3)

Modelled from the spec: detect_anomalies of ml_models.py is not under the
snapshot.  The spec requires two techniques (a seeded randomized
multivariate outlier score, more negative meaning more anomalous, and
per-metric z-scores with a 2.5 to 3 cutoff), and a determinism requirement:
the randomized method must be run with a fixed deterministic seed so that
repeated runs on identical input flag identical day sets.  The randomized
component is modelled by a linear congruential generator keyed on the
seed, and every run uses the fixed seed rather than drawing a fresh one. -/

/-- Population variance of a list of rationals. -/
def varQ (l : List ℚ) : ℚ := meanQ (l.map (fun x => (x - meanQ l) ^ 2))

/-- Squared z-score of a value against the column of its metric over the
window; 0 for a constant (zero-variance) column, which is skipped. -/
def zSq (df : Dataset) (m : String) (x : ℚ) : ℚ :=
  if varQ (columnValues df m) = 0 then 0
  else (x - meanQ (columnValues df m)) ^ 2 / varQ (columnValues df m)

/-- One step of the linear congruential generator modelling the randomized
component of the multivariate method. -/
def lcgStep (s : Nat) : Nat := (1103515245 * s + 12345) % 2147483648

/-- The i-th pseudo-random draw from a seed. -/
def pseudoRand (seed i : Nat) : Nat := lcgStep^[i + 1] seed

/-- Squared per-metric z-score cutoff (2.5 squared). -/
def zCutoffSq : ℚ := 25/4

/-- Cutoff below which a composite score flags the day. -/
def compositeCutoff : ℚ := -(5/2)

/-- Composite anomaly score of day i: the negated mean squared z-score over
the metrics present that day, perturbed by the seeded pseudo-random draw
(more negative means more anomalous). -/
def compositeScore (seed : Nat) (df : Dataset) (i : Nat) : ℚ :=
  match df[i]? with
  | none => 0
  | some r =>
      ((pseudoRand seed i % 1000 : Nat) : ℚ) / 1000000
        - meanQ ((metricNames df).filterMap (fun m => (getMetric r m).map (fun x => zSq df m x)))

/-- A day is flagged when its composite score falls below the cutoff or any
single metric of that day exceeds the z-score cutoff. -/
def dayFlagged (seed : Nat) (df : Dataset) (i : Nat) : Bool :=
  match df[i]? with
  | none => false
  | some r =>
      decide (compositeScore seed df i < compositeCutoff) ||
      (metricNames df).any (fun m =>
        match getMetric r m with
        | some x => decide (zCutoffSq < zSq df m x)
        | none => false)

/-- The fixed deterministic seed of the multivariate method. -/
def anomalySeed : Nat := 42

/-- The flagged days for a given seed, in ascending date order. -/
def detectAnomaliesSeeded (seed : Nat) (df : Dataset) : List Nat :=
  (List.range df.length).filter (fun i => dayFlagged seed df i)

/-- Modelled from the spec: the Anomaly Detector, always run with the fixed
seed. -/
def detect_anomalies (df : Dataset) : List Nat := detectAnomaliesSeeded anomalySeed df

/-- One invocation of the Anomaly Detector, indexed by which repetition of
the run it is: every run uses the fixed seed, never the run index. -/
def runAnomalyDetection (_runIndex : Nat) (df : Dataset) : List Nat := detect_anomalies df

/-! ## Real-valued statistics shared by the Correlation Analyzer and the
Pattern Detector

The p-values of scipy (pearsonr and the two-sample t-test) are both
two-tailed probabilities of a Student t statistic, embedded here over the
reals through the t distribution function. -/

/-- Mean of a list of reals. -/
noncomputable def meanR (l : List ℝ) : ℝ := l.sum / (l.length : ℝ)

/-- A rational sample as a list of reals. -/
def ratList (l : List ℚ) : List ℝ := l.map (fun x => (x : ℝ))

/-- Sum of squared deviations from the mean. -/
noncomputable def sqDevSum (l : List ℝ) : ℝ := (l.map (fun x => (x - meanR l) ^ 2)).sum

/-- The unnormalized density of the Student t distribution with ν degrees
of freedom. -/
noncomputable def tDensity (ν u : ℝ) : ℝ := Real.rpow (1 + u ^ 2 / ν) (-((ν + 1) / 2))

/-- The distribution function of the Student t distribution, as the
normalized integral of its density. -/
noncomputable def tCdf (ν x : ℝ) : ℝ :=
  (∫ u in Set.Iic x, tDensity ν u) / ∫ u, tDensity ν u

/-- Two-tailed p-value of a t statistic with ν degrees of freedom. -/
noncomputable def twoTailedP (ν t : ℝ) : ℝ := 2 * (1 - tCdf ν |t|)

/-- The p-value of the pooled two-sample t-test comparing the means of two
samples. -/
noncomputable def twoSampleTPValue (g1 g2 : List ℚ) : ℝ :=
  twoTailedP ((g1.length : ℝ) + (g2.length : ℝ) - 2)
    ((meanR (ratList g1) - meanR (ratList g2)) /
      Real.sqrt
        (((sqDevSum (ratList g1) + sqDevSum (ratList g2)) /
            ((g1.length : ℝ) + (g2.length : ℝ) - 2)) *
          (1 / (g1.length : ℝ) + 1 / (g2.length : ℝ))))

/-! ## Pattern Detector (claim C2)

Modelled from the spec: detect_sleep_sugar_pattern of ml_models.py is not
under the snapshot.  The spec splits the days into two groups by whether
the predictor metric on day d is below the threshold, compares the outcome
metric on day d+lag between the groups with a two-sample test, drops
incomplete pairs, and sets the detected flag exactly when the p-value is
below the fixed significance level 0.05 and both groups have at least the
fixed minimum of 5 samples; the orchestrator stores the pattern only when
the flag is set. -/

/-- The complete (predictor on day d, outcome on day d+lag) pairs of the
dataset; pairs with either side missing are dropped. -/
def lagPairs (df : Dataset) (pm om : String) (lag : Nat) : List (ℚ × ℚ) :=
  (List.range df.length).filterMap (fun d =>
    (df[d]?).bind (fun r1 =>
      (df[d + lag]?).bind (fun r2 =>
        (getMetric r1 pm).bind (fun p =>
          (getMetric r2 om).map (fun o => (p, o))))))

/-- Outcome values of the group whose predictor is below the threshold. -/
def lowOutcomes (df : Dataset) (pm om : String) (lag : Nat) (thr : ℚ) : List ℚ :=
  ((lagPairs df pm om lag).filter (fun pr => decide (pr.1 < thr))).map (fun pr => pr.2)

/-- Outcome values of the group whose predictor is at or above the
threshold. -/
def highOutcomes (df : Dataset) (pm om : String) (lag : Nat) (thr : ℚ) : List ℚ :=
  ((lagPairs df pm om lag).filter (fun pr => decide (thr ≤ pr.1))).map (fun pr => pr.2)

/-- The record the Pattern Detector produces. -/
structure PatternResult where
  predictor_metric : String
  outcome_metric : String
  lag_days : Nat
  threshold_value : ℚ
  percent_change : ℚ
  p_value : ℝ
  pattern_detected : Bool
  n_low : Nat
  n_high : Nat

/-- The fixed minimum number of samples required of each group. -/
def minGroupSize : Nat := 5

/-- The fixed significance level of the Pattern Detector. -/
noncomputable def significanceLevel : ℝ := 0.05

/-- Modelled from the spec: the reusable two-metric lagged-comparison
primitive; test is the two-sample statistical test yielding the p-value. -/
noncomputable def detectLaggedPattern (test : List ℚ → List ℚ → ℝ) (sig : ℝ)
    (df : Dataset) (pm om : String) (lag : Nat) (thr : ℚ) : PatternResult :=
  { predictor_metric := pm
    outcome_metric := om
    lag_days := lag
    threshold_value := thr
    percent_change :=
      if meanQ (highOutcomes df pm om lag thr) = 0 then 0
      else
        (meanQ (lowOutcomes df pm om lag thr) - meanQ (highOutcomes df pm om lag thr)) /
          meanQ (highOutcomes df pm om lag thr) * 100
    p_value := test (lowOutcomes df pm om lag thr) (highOutcomes df pm om lag thr)
    pattern_detected :=
      decide (test (lowOutcomes df pm om lag thr) (highOutcomes df pm om lag thr) < sig) &&
      decide (minGroupSize ≤ (lowOutcomes df pm om lag thr).length) &&
      decide (minGroupSize ≤ (highOutcomes df pm om lag thr).length)
    n_low := (lowOutcomes df pm om lag thr).length
    n_high := (highOutcomes df pm om lag thr).length }

/-- The sleep threshold of the hard-coded sleep-to-sugar hypothesis. -/
def sleepThreshold : ℚ := 6

/-- The hard-coded hypothesis of the source: below-threshold sleep on day d
against next-day dietary sugar, tested with the two-sample t-test. -/
noncomputable def detectSleepSugarPattern (df : Dataset) : PatternResult :=
  detectLaggedPattern twoSampleTPValue significanceLevel df
    "sleep_hours" "dietary_sugar" 1 sleepThreshold

/-- From run_full_analysis in IMPLEMENTATION_PLAN.md: the pattern is stored
only when its detected flag is set. -/
noncomputable def storeSleepSugarPattern (df : Dataset) : List PatternResult :=
  if (detectSleepSugarPattern df).pattern_detected then [detectSleepSugarPattern df] else []

/-! ## Correlation Analyzer pair analysis (claim C7)

Modelled from the spec: analyze_correlations of ml_models.py is not under
the snapshot.  For a metric pair the analyzer takes the pairwise-complete
observations (rows where both values are non-null), computes the Pearson
coefficient, and its two-tailed significance from the t statistic of the
coefficient. -/

/-- The pairwise-complete observations of two metric columns. -/
def pairedObs (df : Dataset) (a b : String) : List (ℚ × ℚ) :=
  df.filterMap (fun r =>
    (getMetric r a).bind (fun x => (getMetric r b).map (fun y => (x, y))))

/-- The first components of a paired sample, as reals. -/
def fsts (l : List (ℚ × ℚ)) : List ℝ := l.map (fun p => ((p.1 : ℚ) : ℝ))

/-- The second components of a paired sample, as reals. -/
def snds (l : List (ℚ × ℚ)) : List ℝ := l.map (fun p => ((p.2 : ℚ) : ℝ))

/-- Sum of cross products of deviations about the given centers. -/
noncomputable def crossSum (mx my : ℝ) (l : List (ℚ × ℚ)) : ℝ :=
  (l.map (fun p => (((p.1 : ℚ) : ℝ) - mx) * (((p.2 : ℚ) : ℝ) - my))).sum

/-- Sum of squared deviations of the first components about the center. -/
noncomputable def sqSumFst (mx : ℝ) (l : List (ℚ × ℚ)) : ℝ :=
  (l.map (fun p => ((((p.1 : ℚ) : ℝ)) - mx) ^ 2)).sum

/-- Sum of squared deviations of the second components about the center. -/
noncomputable def sqSumSnd (my : ℝ) (l : List (ℚ × ℚ)) : ℝ :=
  (l.map (fun p => ((((p.2 : ℚ) : ℝ)) - my) ^ 2)).sum

/-- The Pearson correlation coefficient of a paired sample. -/
noncomputable def pearsonR (l : List (ℚ × ℚ)) : ℝ :=
  crossSum (meanR (fsts l)) (meanR (snds l)) l /
    Real.sqrt (sqSumFst (meanR (fsts l)) l * sqSumSnd (meanR (snds l)) l)

/-- The t statistic of a Pearson coefficient over a sample of n pairs. -/
noncomputable def pearsonT (l : List (ℚ × ℚ)) : ℝ :=
  pearsonR l * Real.sqrt (((l.length : ℝ) - 2) / (1 - pearsonR l ^ 2))

/-- The two-tailed significance of the Pearson coefficient of a paired
sample. -/
noncomputable def pearsonP (l : List (ℚ × ℚ)) : ℝ :=
  twoTailedP ((l.length : ℝ) - 2) (pearsonT l)

/-- The coefficient and p-value the Correlation Analyzer reports for one
metric pair of a dataset. -/
noncomputable def analyzePair (df : Dataset) (a b : String) : ℝ × ℝ :=
  (pearsonR (pairedObs df a b), pearsonP (pairedObs df a b))

end HealthAnalytics

namespace HealthAnalytics

/-- C4: the strength buckets weak, moderate and strong partition the range
of absolute coefficients at 0.4 and 0.7, exhaustively and exclusively, and
the chart colours classify by exactly the same buckets. -/
theorem correlation_strength_buckets (c : ℚ) :
    (strengthLabel c = "weak" ↔ |c| < 4/10) ∧
    (strengthLabel c = "moderate" ↔ 4/10 ≤ |c| ∧ |c| < 7/10) ∧
    (strengthLabel c = "strong" ↔ 7/10 ≤ |c|) ∧
    (strengthLabel c = "weak" ∨ strengthLabel c = "moderate" ∨ strengthLabel c = "strong") ∧
    (getCorrelationColor c = "#ef4444" ↔ strengthLabel c = "strong") ∧
    (getCorrelationColor c = "#f59e0b" ↔ strengthLabel c = "moderate") ∧
    (getCorrelationColor c = "#10b981" ↔ strengthLabel c = "weak") := by
  by_cases h1 : (7 : ℚ)/10 ≤ |c| <;> by_cases h2 : (4 : ℚ)/10 ≤ |c| <;>
    simp [strengthLabel, getCorrelationColor, h1, h2] <;> linarith

/-- C5: the severity label of a flagged anomaly is high exactly when the
composite anomaly score falls below the cutoff -0.6 and moderate exactly
otherwise, so severity is a function of how far the score is past the
cutoff. -/
theorem anomaly_severity_cutoff (s : ℚ) :
    (anomalySeverity s = "high" ↔ s < -(6/10)) ∧
    (anomalySeverity s = "moderate" ↔ -(6/10) ≤ s) := by
  by_cases h : s < -(6/10) <;> simp [anomalySeverity, h]
  linarith

/-- C9: the correlated dashboard always requests correlations over at least
30 days: the requested window is 30 whenever the display window is below
30 and the display window itself otherwise. -/
theorem correlation_window_min (days : ℚ) :
    30 ≤ correlationDays days ∧
    correlationDays days = if days < 30 then 30 else days := by
  refine ⟨le_max_right _ _, ?_⟩
  by_cases h : days < 30
  · rw [if_pos h]
    exact max_eq_right h.le
  · rw [if_neg h]
    exact max_eq_left (le_of_not_lt h)

/-- C10: each function of the analytics namespace of the API client
succeeds exactly when the HTTP response is ok, in which case it returns the
parsed body, and throws an error on every non-ok response. -/
theorem analytics_client_error_exactly_on_not_ok (r : Response) (b : String) :
    (exceptOk (ApiAnalytics.analyze r) = r.ok ∧
      (ApiAnalytics.analyze r = Except.ok b ↔ r.ok = true ∧ b = r.body)) ∧
    (exceptOk (ApiAnalytics.getCorrelations r) = r.ok ∧
      (ApiAnalytics.getCorrelations r = Except.ok b ↔ r.ok = true ∧ b = r.body)) ∧
    (exceptOk (ApiAnalytics.getAnomalies r) = r.ok ∧
      (ApiAnalytics.getAnomalies r = Except.ok b ↔ r.ok = true ∧ b = r.body)) ∧
    (exceptOk (ApiAnalytics.getTrends r) = r.ok ∧
      (ApiAnalytics.getTrends r = Except.ok b ↔ r.ok = true ∧ b = r.body)) ∧
    (exceptOk (ApiAnalytics.getSummary r) = r.ok ∧
      (ApiAnalytics.getSummary r = Except.ok b ↔ r.ok = true ∧ b = r.body)) ∧
    (exceptOk (ApiAnalytics.getBaselines r) = r.ok ∧
      (ApiAnalytics.getBaselines r = Except.ok b ↔ r.ok = true ∧ b = r.body)) := by
  obtain ⟨ok, body, detail⟩ := r
  cases ok <;>
    simp [ApiAnalytics.analyze, ApiAnalytics.getCorrelations, ApiAnalytics.getAnomalies,
      ApiAnalytics.getTrends, ApiAnalytics.getSummary, ApiAnalytics.getBaselines,
      exceptOk, eq_comm]

/-- C1: on any dataset of fewer than 30 rows the orchestrator returns the
insufficient-data error result, and that outcome does not depend on the
four analyzer functions (none of them is invoked); on any dataset of at
least 30 rows the insufficient-data error is never returned. -/
theorem insufficient_data_gate {α β γ δ : Type}
    (c c2 : Dataset → α) (a a2 : Dataset → β)
    (t t2 : Dataset → γ) (p p2 : Dataset → δ) (df : Dataset) :
    (df.length < 30 →
      run_full_analysis c a t p df =
        Except.error "Insufficient data (need at least 30 days)" ∧
      run_full_analysis c a t p df = run_full_analysis c2 a2 t2 p2 df) ∧
    (30 ≤ df.length →
      run_full_analysis c a t p df ≠
        Except.error "Insufficient data (need at least 30 days)") := by
  constructor
  · intro h
    rw [run_full_analysis, run_full_analysis, if_pos h, if_pos h]
    exact ⟨rfl, rfl⟩
  · intro h
    rw [run_full_analysis, if_neg (by omega)]
    exact fun hco => Except.noConfusion hco

/-- Concrete check of the orchestrator gate: the empty dataset yields the
insufficient-data error, and a 30-row dataset does not. -/
theorem insufficient_data_gate_witness :
    ([] : Dataset).length < 30 ∧
    run_full_analysis unitAnalyzer unitAnalyzer unitAnalyzer unitAnalyzer ([] : Dataset) =
      Except.error "Insufficient data (need at least 30 days)" ∧
    30 ≤ (List.replicate 30 emptyRow : Dataset).length ∧
    run_full_analysis unitAnalyzer unitAnalyzer unitAnalyzer unitAnalyzer
      (List.replicate 30 emptyRow : Dataset) ≠
      Except.error "Insufficient data (need at least 30 days)" :=
  ⟨by simp,
   ((insufficient_data_gate unitAnalyzer unitAnalyzer unitAnalyzer unitAnalyzer
      unitAnalyzer unitAnalyzer unitAnalyzer unitAnalyzer ([] : Dataset)).1 (by simp)).1,
   by simp,
   (insufficient_data_gate unitAnalyzer unitAnalyzer unitAnalyzer unitAnalyzer
      unitAnalyzer unitAnalyzer unitAnalyzer unitAnalyzer
      (List.replicate 30 emptyRow : Dataset)).2 (by simp)⟩

/-- C8 counterexample: on a 30-row dataset where exactly one analyzer (the
anomaly detector) fails and the other three succeed with concrete results,
the orchestrator of IMPLEMENTATION_PLAN.md returns the analyzer error: the
whole run aborts, and the result is not the partial bundle that keeps the
other analyzers and replaces the failing one by an empty collection. -/
theorem orchestrator_abort_counterexample :
    run_full_analysis_fallible
      (fun _ => Except.ok ([sampleCorrelation] : List Correlation))
      (fun _ => (Except.error "ValueError: malformed input" : Except String (List Anomaly)))
      (fun _ => Except.ok ([sampleTrend] : List Trend))
      (fun _ => Except.ok ([] : List ApiPattern))
      (List.replicate 30 emptyRow) = Except.error "ValueError: malformed input" ∧
    run_full_analysis_fallible
      (fun _ => Except.ok ([sampleCorrelation] : List Correlation))
      (fun _ => (Except.error "ValueError: malformed input" : Except String (List Anomaly)))
      (fun _ => Except.ok ([sampleTrend] : List Trend))
      (fun _ => Except.ok ([] : List ApiPattern))
      (List.replicate 30 emptyRow) ≠
      Except.ok ([sampleCorrelation], ([] : List Anomaly), [sampleTrend],
        ([] : List ApiPattern)) :=
  ⟨rfl, fun h => Except.noConfusion h⟩

/-- C8 (amended): in the client, each of the correlations, anomalies and
trends fetches that rejects is individually replaced by an empty list while
the other two results are kept, and the dashboard correlations fetch
likewise degrades to an empty list; in the backend orchestrator, however, a
single failing analyzer aborts the whole run with that failure and no
partial result, whichever of the four positions fails. -/
theorem analyzer_failure_client_containment :
    (∀ (e : String) (cs : List Correlation) (ts : List Trend),
      loadAnalyticsCombine (Except.ok cs) (Except.error e) (Except.ok ts) = ⟨cs, [], ts⟩) ∧
    (∀ (e : String) (as : List Anomaly) (ts : List Trend),
      loadAnalyticsCombine (Except.error e) (Except.ok as) (Except.ok ts) = ⟨[], as, ts⟩) ∧
    (∀ (e : String) (cs : List Correlation) (as : List Anomaly),
      loadAnalyticsCombine (Except.ok cs) (Except.ok as) (Except.error e) = ⟨cs, as, []⟩) ∧
    (∀ (e : String), loadDashboardCorrelations (Except.error e) = []) ∧
    (∀ (cs : List Correlation), loadDashboardCorrelations (Except.ok cs) = cs) ∧
    (∀ (e : String) (cs : List Correlation) (as : List Anomaly) (ts : List Trend)
      (ps : List ApiPattern) (df : Dataset), 30 ≤ df.length →
      run_full_analysis_fallible (fun _ => (Except.error e : Except String (List Correlation)))
          (fun _ => Except.ok as) (fun _ => Except.ok ts) (fun _ => Except.ok ps) df =
        Except.error e ∧
      run_full_analysis_fallible (fun _ => Except.ok cs)
          (fun _ => (Except.error e : Except String (List Anomaly)))
          (fun _ => Except.ok ts) (fun _ => Except.ok ps) df = Except.error e ∧
      run_full_analysis_fallible (fun _ => Except.ok cs) (fun _ => Except.ok as)
          (fun _ => (Except.error e : Except String (List Trend)))
          (fun _ => Except.ok ps) df = Except.error e ∧
      run_full_analysis_fallible (fun _ => Except.ok cs) (fun _ => Except.ok as)
          (fun _ => Except.ok ts)
          (fun _ => (Except.error e : Except String (List ApiPattern))) df =
        Except.error e) := by
  refine ⟨?_, ?_, ?_, ?_, ?_, ?_⟩
  · intros
    rfl
  · intros
    rfl
  · intros
    rfl
  · intros
    rfl
  · intros
    rfl
  · intro e cs as ts ps df h
    have hlt : ¬ df.length < 30 := by omega
    refine ⟨?_, ?_, ?_, ?_⟩ <;> (unfold run_full_analysis_fallible; rw [if_neg hlt]; rfl)

/-- Concrete check of the amended claim at a 30-row dataset: a failing
anomaly analyzer aborts the orchestrator run with its error. -/
theorem analyzer_failure_client_containment_witness :
    run_full_analysis_fallible
      (fun _ => Except.ok ([sampleCorrelation] : List Correlation))
      (fun _ => (Except.error "analyzer failure" : Except String (List Anomaly)))
      (fun _ => Except.ok ([sampleTrend] : List Trend))
      (fun _ => Except.ok ([] : List ApiPattern))
      (List.replicate 30 emptyRow) = Except.error "analyzer failure" :=
  (analyzer_failure_client_containment.2.2.2.2.2 "analyzer failure"
    [sampleCorrelation] [] [sampleTrend] []
    (List.replicate 30 emptyRow) (by simp)).2.1

/-- C6: every trend the Trend Analyzer reports has a nonzero first-window
average, and its percent change is exactly (lastAvg - firstAvg) / firstAvg
x 100; the zero-average case is skipped, so the division-by-zero branch is
unreachable for reported results. -/
theorem trend_percent_change_sound (df : Dataset) :
    (analyze_trends df).all (fun tr =>
      decide (tr.first_avg ≠ 0) &&
      decide (tr.percent_change = (tr.last_avg - tr.first_avg) / tr.first_avg * 100)) = true := by
  rw [List.all_eq_true]
  intro tr htr
  simp only [analyze_trends, List.mem_filterMap] at htr
  obtain ⟨m, _, hf⟩ := htr
  rw [trendFor] at hf
  split_ifs at hf with h1 h2
  rw [Option.some.injEq] at hf
  rw [← hf]
  simp [h2]

/-- C3: the Anomaly Detector is deterministic: any two repetitions of the
run on the identical dataset produce the identical flagged-day list,
because every run uses the fixed seed anomalySeed of the randomized
multivariate method. -/
theorem anomaly_detection_deterministic (i j : Nat) (df : Dataset) :
    runAnomalyDetection i df = runAnomalyDetection j df := rfl

/-- C2: the detected flag of the Pattern Detector is set exactly when the
p-value of the two-sample test is below the fixed significance level 0.05
and both comparison groups have at least the fixed minimum of 5 samples,
both for the generic lagged-comparison primitive under any two-sample test
and for the hard-coded sleep-to-sugar instance; and every stored pattern
has the flag set. -/
theorem pattern_detected_iff (test : List ℚ → List ℚ → ℝ) (df : Dataset)
    (pm om : String) (lag : Nat) (thr : ℚ) :
    ((detectLaggedPattern test significanceLevel df pm om lag thr).pattern_detected = true ↔
      test (lowOutcomes df pm om lag thr) (highOutcomes df pm om lag thr) < significanceLevel ∧
      minGroupSize ≤ (lowOutcomes df pm om lag thr).length ∧
      minGroupSize ≤ (highOutcomes df pm om lag thr).length) ∧
    ((detectSleepSugarPattern df).pattern_detected = true ↔
      twoSampleTPValue (lowOutcomes df "sleep_hours" "dietary_sugar" 1 sleepThreshold)
          (highOutcomes df "sleep_hours" "dietary_sugar" 1 sleepThreshold) <
        significanceLevel ∧
      minGroupSize ≤ (lowOutcomes df "sleep_hours" "dietary_sugar" 1 sleepThreshold).length ∧
      minGroupSize ≤ (highOutcomes df "sleep_hours" "dietary_sugar" 1 sleepThreshold).length) ∧
    (storeSleepSugarPattern df).all (fun r => r.pattern_detected) = true := by
  refine ⟨?_, ?_, ?_⟩
  · simp [detectLaggedPattern, Bool.and_eq_true, decide_eq_true_iff, and_assoc]
  · simp [detectSleepSugarPattern, detectLaggedPattern, Bool.and_eq_true,
      decide_eq_true_iff, and_assoc]
  · unfold storeSleepSugarPattern
    cases h : (detectSleepSugarPattern df).pattern_detected <;> simp [h]

/-- Reversing the metric order reverses each pairwise-complete
observation. -/
theorem pairedObs_swap (df : Dataset) (a b : String) :
    pairedObs df b a = (pairedObs df a b).map Prod.swap := by
  unfold pairedObs
  rw [List.map_filterMap]
  congr 1
  funext r
  cases hx : getMetric r a <;> cases hy : getMetric r b <;> simp [hx, hy]

/-- First components of the swapped sample are the second components. -/
theorem fsts_swap (l : List (ℚ × ℚ)) : fsts (l.map Prod.swap) = snds l := by
  unfold fsts snds
  rw [List.map_map]
  rfl

/-- Second components of the swapped sample are the first components. -/
theorem snds_swap (l : List (ℚ × ℚ)) : snds (l.map Prod.swap) = fsts l := by
  unfold fsts snds
  rw [List.map_map]
  rfl

/-- The cross-product sum is symmetric under swapping the sample. -/
theorem crossSum_swap (mx my : ℝ) (l : List (ℚ × ℚ)) :
    crossSum my mx (l.map Prod.swap) = crossSum mx my l := by
  unfold crossSum
  rw [List.map_map]
  apply congrArg List.sum
  apply List.map_congr_left
  intro p _
  obtain ⟨x, y⟩ := p
  simp [Prod.swap]
  ring

/-- The squared-deviation sum of the first components of the swapped sample
is that of the second components. -/
theorem sqSumFst_swap (m : ℝ) (l : List (ℚ × ℚ)) :
    sqSumFst m (l.map Prod.swap) = sqSumSnd m l := by
  unfold sqSumFst sqSumSnd
  rw [List.map_map]
  rfl

/-- The squared-deviation sum of the second components of the swapped
sample is that of the first components. -/
theorem sqSumSnd_swap (m : ℝ) (l : List (ℚ × ℚ)) :
    sqSumSnd m (l.map Prod.swap) = sqSumFst m l := by
  unfold sqSumFst sqSumSnd
  rw [List.map_map]
  rfl

/-- The Pearson coefficient is invariant under swapping the sample. -/
theorem pearsonR_swap (l : List (ℚ × ℚ)) : pearsonR (l.map Prod.swap) = pearsonR l := by
  unfold pearsonR
  rw [fsts_swap, snds_swap, crossSum_swap, sqSumFst_swap, sqSumSnd_swap,
    mul_comm (sqSumSnd (meanR (snds l)) l) (sqSumFst (meanR (fsts l)) l)]

/-- The two-tailed significance is invariant under swapping the sample. -/
theorem pearsonP_swap (l : List (ℚ × ℚ)) : pearsonP (l.map Prod.swap) = pearsonP l := by
  unfold pearsonP pearsonT
  rw [pearsonR_swap, List.length_map]

/-- C7: the pairwise analysis of the Correlation Analyzer is commutative in
its two metric arguments: swapping the metrics yields the same coefficient
and the same p-value. -/
theorem correlation_pair_symmetric (df : Dataset) (a b : String) :
    analyzePair df a b = analyzePair df b a := by
  unfold analyzePair
  rw [pairedObs_swap df a b, pearsonR_swap, pearsonP_swap]

end HealthAnalytics
